import Mathlib

/-!
Shallow embedding of the core of `src/library/apn.c` (libcapn): the
connection-context data model, the credential setters, close, the
connect/TLS-connect state effects, the batch-send engine
(`__apn_send_binary_message`), the `apn_send` retry loop, the Apple
error-frame parser, the error translator, and the feedback-frame decoder.

Conventions of the embedding:
* C strings become `Option String` (NULL = `none`) for configuration fields,
  and `List Char` for device tokens (so that `strndup` truncation is a
  plain `List.take`).
* The socket handle keeps the C sentinel convention (`sock : Int`, `-1`
  meaning absent); the TLS session pointer becomes `ssl : Bool`
  (NULL = `false`).
* External effects (DNS, TCP, OpenSSL calls, socket readiness) are
  abstracted into explicit outcome/event parameters; the state updates the
  C code performs around those calls are mirrored exactly.
* The leading double underscores of static C functions are dropped from the
  Lean names (`__apn_convert_apple_error` becomes `apn_convert_apple_error`
  and so on), since such identifiers are reserved-looking in Lean.
-/

set_option maxRecDepth 4000

namespace Libcapn

/-- Internal error kinds: the `APN_ERR_*` constants of `apn_errors.h` that
`apn.c` assigns to `errno` or compares against. Only their identity and
distinctness matter to the control flow, so they are modelled as an
inductive; `sysError` stands for any raw OS `errno` value that is none of
the `APN_ERR_*` constants (e.g. the `errno` left by a failed `select`). -/
inductive ApnError where
  | processingError
  | invalidPayloadSize
  | serviceShutdown
  | tokenInvalid
  | unknown
  | connectionClosed
  | networkUnreachable
  | connectionTimedout
  | sslWriteFailed
  | sslReadFailed
  | notConnected
  | certificateNotSet
  | privateKeyNotSet
  | unableToUseCertificate
  | unableToUsePrivateKey
  | unableToUsePkcs12
  | couldNotInitializeSsl
  | sysError
deriving DecidableEq, Repr

/-- `__apn_convert_apple_error` (apn.c lines 950-967): maps the 1-byte
Apple status code to an internal `APN_ERR_*` value; returns 0 (here `none`)
when the status code is 0. The `switch` is mirrored case for case:
`APN_APNS_ERR_PROCESSING_ERROR = 1`, `APN_APNS_ERR_INVALID_PAYLOAD_SIZE = 7`,
`APN_APNS_ERR_SERVICE_SHUTDOWN = 10`, `APN_APNS_ERR_INVALID_TOKEN = 8` and
`APN_APNS_ERR_INVALID_TOKEN_SIZE = 5` share one case, default
`APN_ERR_UNKNOWN`. -/
def apn_convert_apple_error (apple_error_code : Nat) : Option ApnError :=
  if apple_error_code > 0 then
    some (match apple_error_code with
      | 1 => ApnError.processingError
      | 7 => ApnError.invalidPayloadSize
      | 10 => ApnError.serviceShutdown
      | 8 => ApnError.tokenInvalid
      | 5 => ApnError.tokenInvalid
      | _ => ApnError.unknown)
  else none

/-- `apn_send` line 356: `errcode = apple_error_code > 0 ?
__apn_convert_apple_error(apple_error_code) : errno;` — a status code of 0
passes the transport-layer `errno` through unchanged. -/
def resolve_errcode (apple_error_code : Nat) (eno : ApnError) : ApnError :=
  match apn_convert_apple_error apple_error_code with
  | some e => e
  | none => eno

/-- Modelled from the spec: the error-kind table of spec section 4.5,
written from the spec's words only, for comparison with the code's
`__apn_convert_apple_error`. The spec names kinds (MissingToken,
MissingTopic, MissingPayload, InvalidTokenSize, InvalidTopicSize) that do
not exist in the code's taxonomy. -/
inductive SpecErrorKind where
  | processingError
  | missingToken
  | missingTopic
  | missingPayload
  | invalidTokenSize
  | invalidTopicSize
  | invalidPayloadSize
  | invalidToken
  | serviceShutdown
  | unknown
deriving DecidableEq, Repr

/-- Modelled from the spec: the mapping claimed in spec section 4.5
(`none` = code 0, pass the transport error through). -/
def spec_convert_apple_error (c : Nat) : Option SpecErrorKind :=
  if c = 0 then none
  else some (match c with
    | 1 => SpecErrorKind.processingError
    | 2 => SpecErrorKind.missingToken
    | 3 => SpecErrorKind.missingTopic
    | 4 => SpecErrorKind.missingPayload
    | 5 => SpecErrorKind.invalidTokenSize
    | 6 => SpecErrorKind.invalidTopicSize
    | 7 => SpecErrorKind.invalidPayloadSize
    | 8 => SpecErrorKind.invalidToken
    | 10 => SpecErrorKind.serviceShutdown
    | _ => SpecErrorKind.unknown)

/-- C1 counterexample: the claim says status 2 maps to a MissingToken kind
distinct from the Unknown kind of unlisted nonzero codes, and 5 to an
InvalidTokenSize kind distinct from the InvalidToken kind of 8. The code
collapses 2 with every unlisted nonzero code into `APN_ERR_UNKNOWN` and
collapses 5 with 8 into `APN_ERR_TOKEN_INVALID`, so the distinctions, which
do hold of the spec-side table, fail for the code. -/
theorem convert_apple_error_claim_cex :
    spec_convert_apple_error 2 ≠ spec_convert_apple_error 11
      ∧ apn_convert_apple_error 2 = apn_convert_apple_error 11
      ∧ apn_convert_apple_error 2 = some ApnError.unknown
      ∧ spec_convert_apple_error 5 ≠ spec_convert_apple_error 8
      ∧ apn_convert_apple_error 5 = apn_convert_apple_error 8 := by
  decide

/-- C1 (amended): the error translator is a pure mapping from the 1-byte
status code such that 1 maps to ProcessingError, 7 to InvalidPayloadSize,
10 to ServiceShutdown, 5 and 8 both to the invalid-token kind, any other
nonzero code (including 2, 3, 4, 6 and 9) to Unknown, and 0 passes the
transport-layer error through unchanged. -/
theorem convert_apple_error_characterization :
    (∀ c : Nat, c < 256 →
      apn_convert_apple_error c =
        if c = 0 then none
        else if c = 1 then some ApnError.processingError
        else if c = 5 ∨ c = 8 then some ApnError.tokenInvalid
        else if c = 7 then some ApnError.invalidPayloadSize
        else if c = 10 then some ApnError.serviceShutdown
        else some ApnError.unknown)
    ∧ (∀ e : ApnError, resolve_errcode 0 e = e) := by
  constructor
  · decide
  · intro e; rfl

/-- C1 witness: the characterization applied at the concrete status codes
2 and 0. -/
theorem convert_apple_error_characterization_w :
    apn_convert_apple_error 2 = some ApnError.unknown
      ∧ resolve_errcode 0 ApnError.connectionClosed = ApnError.connectionClosed := by
  constructor
  · have h := convert_apple_error_characterization.1 2 (by decide)
    exact h.trans (by decide)
  · exact convert_apple_error_characterization.2 ApnError.connectionClosed

/-- Connection mode (`apn_connection_mode`). -/
inductive ApnMode where
  | sandbox
  | production
deriving DecidableEq, Repr

/-- The connection context `apn_ctx_t` (fields of `apn_private.h` that
`apn.c` reads or writes). `sock : Int` keeps the C sentinel `-1` for
"absent"; `ssl : Bool` is the NULL-ness of the `SSL *` session pointer;
the callback pointers are modelled as presence flags, since `apn.c` only
tests them for NULL before invoking them. -/
structure ApnCtx where
  sock : Int
  ssl : Bool
  certificate_file : Option String
  private_key_file : Option String
  private_key_pass : Option String
  pkcs12_file : Option String
  pkcs12_pass : Option String
  feedback : Bool
  mode : ApnMode
  options : Nat
  log_level : Nat
  has_log_callback : Bool
  has_invalid_token_callback : Bool
deriving DecidableEq, Repr

/-- `apn_init` (lines 134-157): the freshly created context. (`ctx->options`
is in fact never initialized by `apn_init`; it is modelled as 0 here, which
only matters to logging and to `APN_OPTION_RECONNECT`, both of which the
theorems parameterize explicitly.) -/
def apn_init : ApnCtx :=
  { sock := -1
    ssl := false
    certificate_file := none
    private_key_file := none
    private_key_pass := none
    pkcs12_file := none
    pkcs12_pass := none
    feedback := false
    mode := ApnMode.production
    options := 0
    log_level := 1
    has_log_callback := false
    has_invalid_token_callback := false }

/-- `apn_close` (lines 171-191): if a TLS session exists, shut it down
(gracefully, then forcibly — pure external effects), close the socket, free
the session, and reset `ssl` to NULL and `sock` to -1. When `ctx->ssl` is
NULL nothing but logging happens: in particular `ctx->sock` is NOT touched
in that branch. -/
def apn_close (ctx : ApnCtx) : ApnCtx :=
  if ctx.ssl then { ctx with ssl := false, sock := -1 } else ctx

/-- The C setters treat a NULL or empty string as "not supplied"
(`cert && strlen(cert) > 0`). -/
def strSet (s : Option String) : Bool :=
  match s with
  | some str => str.length > 0
  | none => false

/-- `apn_set_certificate` (lines 193-217): frees the three PEM fields, then
installs the certificate if supplied, the key only under a supplied
certificate, and the passphrase only under a supplied key. The PKCS12
fields are not touched. (`apn_strndup` out-of-memory failures are not
modelled; on that path the C function leaves a prefix of the fields set and
returns `APN_ERROR`.) -/
def apn_set_certificate (ctx : ApnCtx) (cert key pass : Option String) : ApnCtx :=
  let ctx0 := { ctx with
    certificate_file := none, private_key_file := none, private_key_pass := none }
  if strSet cert then
    let ctx1 := { ctx0 with certificate_file := cert }
    if strSet key then
      let ctx2 := { ctx1 with private_key_file := key }
      if strSet pass then { ctx2 with private_key_pass := pass } else ctx2
    else ctx1
  else ctx0

/-- `apn_set_pkcs12_file` (lines 219-235): frees the two PKCS12 fields,
then installs the file and (asserted non-empty) passphrase if a file is
supplied. The PEM fields are not touched. -/
def apn_set_pkcs12_file (ctx : ApnCtx) (pkcs12_file pass : Option String) : ApnCtx :=
  let ctx0 := { ctx with pkcs12_file := none, pkcs12_pass := none }
  if strSet pkcs12_file then
    { ctx0 with pkcs12_file := pkcs12_file, pkcs12_pass := pass }
  else ctx0

/-- Outcomes of the external OpenSSL calls inside `__apn_tls_connect`
(lines 969-1101), one constructor per failure site, in source order. -/
inductive TlsOutcome where
  | ctxNewFail
  | pkcs12OpenFail
  | pkcs12ParseFail
  | pkcs12CertInstallFail
  | pkcs12KeyInstallFail
  | certFileFail
  | keyDupFail
  | keyFileFail
  | keyCheckFail
  | sslNewFail
  | setFdFail
  | handshakeFail
  | handshakeOk
deriving DecidableEq, Repr

/-- `__apn_tls_connect` state effect: `ctx->ssl` is assigned only at the
`SSL_new` point (line 1073), which is reached after every credential
install step succeeded; every earlier failure leaves `ctx->ssl` NULL, while
`SSL_set_fd` failure and `SSL_connect` (handshake) failure leave the
freshly allocated session in `ctx->ssl` and return `APN_ERROR`. The
returned `Bool` is `true` for `APN_SUCCESS`. -/
def apn_tls_connect (ctx : ApnCtx) (o : TlsOutcome) : ApnCtx × Bool :=
  match o with
  | TlsOutcome.ctxNewFail => (ctx, false)
  | TlsOutcome.pkcs12OpenFail => (ctx, false)
  | TlsOutcome.pkcs12ParseFail => (ctx, false)
  | TlsOutcome.pkcs12CertInstallFail => (ctx, false)
  | TlsOutcome.pkcs12KeyInstallFail => (ctx, false)
  | TlsOutcome.certFileFail => (ctx, false)
  | TlsOutcome.keyDupFail => (ctx, false)
  | TlsOutcome.keyFileFail => (ctx, false)
  | TlsOutcome.keyCheckFail => (ctx, false)
  | TlsOutcome.sslNewFail => (ctx, false)
  | TlsOutcome.setFdFail => ({ ctx with ssl := true }, false)
  | TlsOutcome.handshakeFail => ({ ctx with ssl := true }, false)
  | TlsOutcome.handshakeOk => ({ ctx with ssl := true }, true)

/-- Outcomes of the DNS / socket / TCP-connect stage of `__apn_connect`
(lines 612-678). `tcpOk s tls` is a successful TCP connect on the new
socket handle `s` followed by the TLS stage with outcome `tls`. -/
inductive ConnectOutcome where
  | resolveFail
  | socketFail
  | tcpFail
  | tcpOk (s : Int) (tls : TlsOutcome)
deriving DecidableEq, Repr

/-- `__apn_connect` (lines 596-697): the credential presence checks run
first (`APN_ERR_CERTIFICATE_IS_NOT_SET` / `APN_ERR_PRIVATE_KEY_IS_NOT_SET`
when no PKCS12 file is configured); then, only when `ctx->sock == -1`, the
resolve/socket/TCP-connect sequence runs, `ctx->sock` is assigned (line
678) and `__apn_tls_connect` is invoked; a context whose socket already
exists returns `APN_SUCCESS` without doing anything. Note that on a TLS
failure the function returns `APN_ERROR` with `ctx->sock` already set. -/
def apn_connect_impl (ctx : ApnCtx) (o : ConnectOutcome) : ApnCtx × Bool :=
  if ctx.pkcs12_file = none ∧ ctx.certificate_file = none then (ctx, false)
  else if ctx.pkcs12_file = none ∧ ctx.private_key_file = none then (ctx, false)
  else if ctx.sock = -1 then
    match o with
    | ConnectOutcome.resolveFail => (ctx, false)
    | ConnectOutcome.socketFail => (ctx, false)
    | ConnectOutcome.tcpFail => (ctx, false)
    | ConnectOutcome.tcpOk s tls => apn_tls_connect { ctx with sock := s } tls
  else (ctx, true)

/-- `apn_connect` (lines 296-304): chooses the gateway server by mode and
delegates to `__apn_connect`; the server only feeds the abstracted
resolution stage. -/
def apn_connect (ctx : ApnCtx) (o : ConnectOutcome) : ApnCtx × Bool :=
  apn_connect_impl ctx o

/-- `apn_feedback_connect` (lines 413-422): sets `ctx->feedback = 1` and
delegates to `__apn_connect` with the feedback server. -/
def apn_feedback_connect (ctx : ApnCtx) (o : ConnectOutcome) : ApnCtx × Bool :=
  apn_connect_impl { ctx with feedback := true } o

/-- The `__APN_CHECK_CONNECTION` guard of `apn_send` (lines 306-311):
`if (!ctx->ssl || ctx->feedback)` fail with `APN_ERR_NOT_CONNECTED`. -/
def apn_send_precheck (ctx : ApnCtx) : Option ApnError :=
  if ctx.ssl = false ∨ ctx.feedback = true then some ApnError.notConnected else none

/-- The precondition check at the top of `apn_feedback` (lines 431-434):
`if (!ctx->ssl || ctx->feedback)` fail with `APN_ERR_NOT_CONNECTED` —
textually the same condition as the send guard. -/
def apn_feedback_precheck (ctx : ApnCtx) : Option ApnError :=
  if ctx.ssl = false ∨ ctx.feedback = true then some ApnError.notConnected else none

/-- A context configured with a PEM certificate and key, as
`apn_set_certificate` leaves it. -/
def ctxPem : ApnCtx :=
  apn_set_certificate apn_init (some "cert.pem") (some "key.pem") none

/-- The spec's context invariant (section 3): socket handle and TLS session
are both present or both absent. -/
def ctxInvariant (c : ApnCtx) : Prop :=
  c.sock ≠ -1 ↔ c.ssl = true

instance (c : ApnCtx) : Decidable (ctxInvariant c) := by
  unfold ctxInvariant; infer_instance

/-- C2 (code bug): after a successful `apn_feedback_connect` the context is
marked `feedback` and holds an open session, yet `apn_feedback` rejects it
with `APN_ERR_NOT_CONNECTED`, because its guard `!ctx->ssl || ctx->feedback`
(lines 431-434) is the send guard copied verbatim with the feedback test
NOT inverted; conversely a connected context that was never put in feedback
mode passes the guard. Both directions of the claim fail. -/
theorem feedback_guard_inverted :
    (apn_feedback_connect ctxPem (ConnectOutcome.tcpOk 5 TlsOutcome.handshakeOk)).1.feedback = true
      ∧ (apn_feedback_connect ctxPem (ConnectOutcome.tcpOk 5 TlsOutcome.handshakeOk)).1.ssl = true
      ∧ (apn_feedback_connect ctxPem (ConnectOutcome.tcpOk 5 TlsOutcome.handshakeOk)).2 = true
      ∧ apn_feedback_precheck
          (apn_feedback_connect ctxPem (ConnectOutcome.tcpOk 5 TlsOutcome.handshakeOk)).1
          = some ApnError.notConnected
      ∧ apn_feedback_precheck { apn_init with ssl := true } = none := by
  decide

/-- C3 counterexample: configuring a PEM certificate and then a PKCS12 file
leaves BOTH configurations present — `apn_set_pkcs12_file` does not clear
the PEM fields, and `apn_set_certificate` does not clear the PKCS12
fields. -/
theorem credential_setters_no_mutual_clear_cex :
    (apn_set_pkcs12_file ctxPem (some "cred.p12") (some "secret")).certificate_file
        = some "cert.pem"
      ∧ (apn_set_pkcs12_file ctxPem (some "cred.p12") (some "secret")).private_key_file
        = some "key.pem"
      ∧ (apn_set_pkcs12_file ctxPem (some "cred.p12") (some "secret")).pkcs12_file
        = some "cred.p12"
      ∧ (apn_set_certificate
            (apn_set_pkcs12_file apn_init (some "cred.p12") (some "secret"))
            (some "cert.pem") (some "key.pem") none).pkcs12_file
        = some "cred.p12" := by
  decide

/-- C3 (amended): each credential setter clears and replaces only its own
family's fields — setting a PKCS12 file leaves the PEM
certificate/key/passphrase fields unchanged, and setting a PEM certificate
leaves the PKCS12 file/passphrase fields unchanged — so both
configurations can be present on one context at the same time. -/
theorem credential_setters_frame :
    ∀ (ctx : ApnCtx) (cert key pass pk12 p12pass : Option String),
      (apn_set_pkcs12_file ctx pk12 p12pass).certificate_file = ctx.certificate_file
        ∧ (apn_set_pkcs12_file ctx pk12 p12pass).private_key_file = ctx.private_key_file
        ∧ (apn_set_pkcs12_file ctx pk12 p12pass).private_key_pass = ctx.private_key_pass
        ∧ (apn_set_certificate ctx cert key pass).pkcs12_file = ctx.pkcs12_file
        ∧ (apn_set_certificate ctx cert key pass).pkcs12_pass = ctx.pkcs12_pass := by
  intro ctx cert key pass pk12 p12pass
  refine ⟨?_, ?_, ?_, ?_, ?_⟩ <;>
    · simp only [apn_set_pkcs12_file, apn_set_certificate]
      repeat' split
      all_goals rfl

/-- C7 counterexample: on a context holding a socket but no TLS session
(the state a failed `__apn_tls_connect` leaves behind, see
`connect_error_leaves_socket_without_session`), `apn_close` is a no-op, so
the socket field is NOT reset to absent by the close call. -/
theorem close_leaves_orphan_socket_cex :
    (apn_close { apn_init with sock := 5 }).sock = 5 ∧ (5 : Int) ≠ -1 := by
  decide

/-- C7 (amended): `apn_close` is idempotent; on a context with no open TLS
session it has no effect at all and does not fail; after any close call the
TLS session is absent, and the socket is reset to absent provided the
context satisfied the both-present-or-both-absent invariant beforehand
(equivalently: a session was present, or the socket was already absent).
Only on the anomalous socket-without-session state does close leave the
socket behind. -/
theorem close_idempotent_resets :
    ∀ ctx : ApnCtx,
      (ctx.ssl = false → apn_close ctx = ctx)
        ∧ apn_close (apn_close ctx) = apn_close ctx
        ∧ (apn_close ctx).ssl = false
        ∧ (ctx.ssl = true ∨ ctx.sock = -1 → (apn_close ctx).sock = -1) := by
  intro ctx
  cases hssl : ctx.ssl <;>
    simp [apn_close, hssl]

/-- C7 witness: the amended theorem applied to the freshly initialized
(disconnected) context. -/
theorem close_idempotent_resets_w :
    apn_close apn_init = apn_init ∧ (apn_close apn_init).sock = -1 :=
  ⟨(close_idempotent_resets apn_init).1 rfl,
   (close_idempotent_resets apn_init).2.2.2 (Or.inr rfl)⟩

/-- C8 (code bug): `__apn_connect` assigns `ctx->sock` (line 678) before
invoking `__apn_tls_connect`; when the TLS stage fails (here: the PEM
certificate install is rejected), `apn_connect` returns `APN_ERROR` leaving
the socket present and the session absent — the invariant that held on
entry is broken. On that state `apn_close` is a no-op (it cannot release
the socket), and a second `apn_connect` sees `ctx->sock != -1` and returns
`APN_SUCCESS` without creating any TLS session. -/
theorem connect_error_leaves_socket_without_session :
    (apn_connect ctxPem (ConnectOutcome.tcpOk 5 TlsOutcome.certFileFail)).2 = false
      ∧ (apn_connect ctxPem (ConnectOutcome.tcpOk 5 TlsOutcome.certFileFail)).1.sock = 5
      ∧ (apn_connect ctxPem (ConnectOutcome.tcpOk 5 TlsOutcome.certFileFail)).1.ssl = false
      ∧ ctxInvariant ctxPem
      ∧ ¬ ctxInvariant (apn_connect ctxPem (ConnectOutcome.tcpOk 5 TlsOutcome.certFileFail)).1
      ∧ apn_close (apn_connect ctxPem (ConnectOutcome.tcpOk 5 TlsOutcome.certFileFail)).1
          = (apn_connect ctxPem (ConnectOutcome.tcpOk 5 TlsOutcome.certFileFail)).1
      ∧ (apn_connect (apn_connect ctxPem (ConnectOutcome.tcpOk 5 TlsOutcome.certFileFail)).1
            (ConnectOutcome.tcpOk 7 TlsOutcome.handshakeOk)).2 = true
      ∧ (apn_connect (apn_connect ctxPem (ConnectOutcome.tcpOk 5 TlsOutcome.certFileFail)).1
            (ConnectOutcome.tcpOk 7 TlsOutcome.handshakeOk)).1.ssl = false := by
  decide

/-- The 6-byte buffer `char apple_error_str[6]` an error frame is read
into: byte 0 = command, byte 1 = status, bytes 2-5 = identifier in network
byte order. -/
structure ErrorFrame where
  b0 : Nat
  b1 : Nat
  b2 : Nat
  b3 : Nat
  b4 : Nat
  b5 : Nat
deriving DecidableEq, Repr

/-- `ntohl` applied to the four identifier bytes in network (big-endian)
order, as `__apn_parse_apns_error` obtains the token index. -/
def ntohl4 (b2 b3 b4 b5 : Nat) : Nat :=
  ((b2 * 256 + b3) * 256 + b4) * 256 + b5

/-- `__apn_parse_apns_error` (lines 777-794): the two out-parameters are
modelled by threading their previous values (`code0`, `id0`) and returning
the possibly-updated pair. The status code is stored only when the command
byte is 8, and the identifier is decoded (with `ntohl`) only when, in
addition, the status equals `APN_APNS_ERR_INVALID_TOKEN` (= 8). -/
def apn_parse_apns_error (f : ErrorFrame) (code0 id0 : Nat) : Nat × Nat :=
  if f.b0 = 8 then
    (f.b1, if f.b1 = 8 then ntohl4 f.b2 f.b3 f.b4 f.b5 else id0)
  else (code0, id0)

/-- One outcome of the per-token readiness wait (`select` on read+write
sets) inside the send loop of `__apn_send_binary_message`: the branch the
code takes for that iteration. (`select` timeouts and `EINTR` just re-arm
the wait and are not events.) -/
inductive Ev where
  | rd (f : ErrorFrame)
  | rdErr (e : ApnError)
  | wr
  | wrErr (e : ApnError)
  | selErr
deriving DecidableEq, Repr

/-- One outcome of the trailing 1-second read-only wait after the last
token (lines 915-926); `none` is the timeout, i.e. no trailing error
frame. -/
inductive TrailEv where
  | rd (f : ErrorFrame)
  | rdErr (e : ApnError)
  | selErr
deriving DecidableEq, Repr

/-- What `__apn_send_binary_message` leaves behind: the `apn_return` value
(`ret = true` is `APN_SUCCESS`), the two out-parameters
`apple_error_code` / `invalid_token_index`, and the `errno` value (`eno`)
as the caller will observe it (the ambient value when no primitive set
it). -/
structure EngineResult where
  ret : Bool
  code : Nat
  idx : Nat
  eno : ApnError
deriving DecidableEq, Repr

/-- The trailing phase of `__apn_send_binary_message`: on a frame, parse it
and return `APN_ERROR`; on a read failure, set `invalid_token_index` to the
loop counter (now = token count) and fail; on a `select` failure, fail with
the OS errno; on timeout, the batch is a success. -/
def engineTrail (code id i : Nat) (t : Option TrailEv) (e0 : ApnError) : EngineResult :=
  match t with
  | none => ⟨true, code, id, e0⟩
  | some (TrailEv.rd f) =>
      let p := apn_parse_apns_error f code id
      ⟨false, p.1, p.2, e0⟩
  | some (TrailEv.rdErr e) => ⟨false, code, i, e⟩
  | some TrailEv.selErr => ⟨false, code, id, ApnError.sysError⟩

/-- `__apn_send_binary_message` (lines 866-934), for `i` from the start
index while `i < count`: a readable socket with a 6-byte frame breaks the
loop, parses the frame into the out-parameters and returns `APN_ERROR`
WHATEVER the frame's command byte is; a read failure stores the current
token index into `invalid_token_index` and fails; a writable socket writes
the message for token `i` and advances; a write failure fails without
touching `invalid_token_index`; a `select` failure fails. After the loop
the trailing wait runs. The message buffer stamping
(`apn_binary_message_set_id` / `set_token_hex`) mutates only the excluded
payload collaborator and is not part of the state here. `none` stands for
the (non-terminating in this model) case that the event trace is
exhausted with tokens still unsent. -/
def apn_send_binary_message (tokens : List (List Char)) (evs : List Ev)
    (t : Option TrailEv) (i code id : Nat) (e0 : ApnError) : Option EngineResult :=
  if i < tokens.length then
    match evs with
    | [] => none
    | Ev.rd f :: _ =>
        let p := apn_parse_apns_error f code id
        some ⟨false, p.1, p.2, e0⟩
    | Ev.rdErr e :: _ => some ⟨false, code, i, e⟩
    | Ev.wr :: rest => apn_send_binary_message tokens rest t (i + 1) code id e0
    | Ev.wrErr e :: _ => some ⟨false, code, id, e⟩
    | Ev.selErr :: _ => some ⟨false, code, id, ApnError.sysError⟩
  else some (engineTrail code id i t e0)

/-- `APN_TOKEN_LENGTH` — Modelled from the spec: the constant lives in
`apn_tokens.h`, which is not under src/; per the spec a device token is a
32-byte binary value, i.e. a 64-character hex string, and `apn_send`
duplicates invalid tokens with `apn_strndup(token, APN_TOKEN_LENGTH)`. -/
def APN_TOKEN_LENGTH : Nat := 64

/-- `apn_strndup` (from `apn_strings.c`, not under src/): duplicate at most
`n` characters — value-level this is `List.take` (the memory-level "new
allocation" aspect is what makes the copy outlive the batch). -/
def apn_strndup (s : List Char) (n : Nat) : List Char :=
  s.take n

/-- What one iteration of the `apn_send` retry loop does with the engine's
result: break out with success, break out with an error (stored into
`errno`), or run another iteration from `start` (with `auto = true` when
this iteration enabled auto-reconnect). -/
inductive StepRes where
  | breakOk (collected : List (List Char))
  | breakFail (e : ApnError) (collected : List (List Char))
  | again (auto : Bool) (start : Nat) (collected : List (List Char))
deriving DecidableEq, Repr

/-- The error-handling block of `apn_send` (lines 353-402) run on one
engine result `r`. `reconnectOpt` is `options & APN_OPTION_RECONNECT`;
`want` is the NULL-ness of the caller's `invalid_tokens` out-parameter
(the collection is only populated when the caller asked for it).
Mirrors the source: `errcode` resolution (line 356); the invalid-token
duplication into the collection (lines 357-375); the resume-index
computation `start_index = errcode == TOKEN_INVALID ? idx + 1 : idx`
(line 381); then, when tokens remain, the reconnect test — whose branch
unconditionally overwrites `start_index = idx + 1` (line 391) — and
otherwise the loop falls through and runs again WITHOUT reconnecting;
when no tokens remain, an invalid-token error is converted into overall
success (lines 395-398) and any other error is stored into `errno` and
returned (lines 399-401). -/
def apn_send_step (tokens : List (List Char)) (reconnectOpt want : Bool)
    (r : EngineResult) (collected : List (List Char)) : StepRes :=
  if r.ret then StepRes.breakOk collected
  else
    let errcode := resolve_errcode r.code r.eno
    let collected1 :=
      if errcode = ApnError.tokenInvalid ∧ want then
        collected ++ [apn_strndup (tokens.getD r.idx []) APN_TOKEN_LENGTH]
      else collected
    let start_index := if errcode = ApnError.tokenInvalid then r.idx + 1 else r.idx
    if start_index < tokens.length then
      if reconnectOpt ∧ (errcode = ApnError.connectionClosed
          ∨ errcode = ApnError.serviceShutdown
          ∨ errcode = ApnError.tokenInvalid) then
        StepRes.again true (r.idx + 1) collected1
      else
        StepRes.again false start_index collected1
    else if errcode = ApnError.tokenInvalid then
      StepRes.breakOk collected1
    else
      StepRes.breakFail errcode collected1

/-- Overall result of `apn_send`: `APN_SUCCESS` or `APN_ERROR` (with the
final `errno`), together with the accumulated invalid-token collection. -/
inductive SendResult where
  | ok (invalid : List (List Char))
  | fail (e : ApnError) (invalid : List (List Char))
deriving DecidableEq, Repr

/-- The `for (;;)` retry loop of `apn_send` (lines 335-404), with the
engine invocations abstracted as a list of oracle results (one per
iteration; `none` when the list runs out with the loop still going). The
close / sleep / `apn_connect` sequence of a reconnect iteration is modelled
as succeeding — a failed reconnect breaks the loop with the connect error,
a path none of the claims touches. `start` is the index the next engine
invocation would be given; `auto` is the (never reset) `auto_reconnect`
flag. -/
def apn_send_loop (tokens : List (List Char)) (reconnectOpt want : Bool) :
    List EngineResult → Nat → List (List Char) → Bool → Option SendResult
  | [], _, _, _ => none
  | r :: rest, _start, coll, auto =>
      match apn_send_step tokens reconnectOpt want r coll with
      | StepRes.breakOk c => some (SendResult.ok c)
      | StepRes.breakFail e c => some (SendResult.fail e c)
      | StepRes.again a start' c =>
          apn_send_loop tokens reconnectOpt want rest start' c (auto || a)

/-- C4 (code bug): engine fails at token index 1 of a 3-token batch with
`errno = APN_ERR_CONNECTION_CLOSED` (a read failure: delivery of token 1
is unknown), reconnect enabled. Line 381 computes the retry index 1, but
the reconnect branch (line 391) overwrites it with `invalid_token_index+1`,
so the re-invoked engine starts at 2 and token 1 is silently skipped. The
second half shows the other non-token kind: for a server frame with status
10 (service shutdown) and identifier 7, the parser never decodes the
identifier (it stays 0), and the reconnect branch resumes at 0+1 = 1. -/
theorem send_reconnect_skips_unknown_delivery_token :
    apn_send_binary_message [['a'], ['b'], ['c']]
        [Ev.wr, Ev.rdErr ApnError.connectionClosed] none 0 0 0 ApnError.unknown
      = some ⟨false, 0, 1, ApnError.connectionClosed⟩
      ∧ apn_send_step [['a'], ['b'], ['c']] true true
          ⟨false, 0, 1, ApnError.connectionClosed⟩ []
        = StepRes.again true 2 []
      ∧ apn_send_binary_message [['a'], ['b'], ['c']]
          [Ev.rd ⟨8, 10, 0, 0, 0, 7⟩] none 0 0 0 ApnError.unknown
        = some ⟨false, 10, 0, ApnError.unknown⟩
      ∧ apn_send_step [['a'], ['b'], ['c']] true true
          ⟨false, 10, 0, ApnError.unknown⟩ []
        = StepRes.again true 1 [] := by
  decide

/-- C6 counterexample: a 6-byte frame whose command byte is 7 (not 8)
arrives during the batch. The parser leaves both out-parameters untouched
(`apple_error_code` stays 0), yet `__apn_send_binary_message` still
returns `APN_ERROR` (`ret = false`): the frame is NOT ignored — its mere
receipt aborts the send. -/
theorem frame_nonerror_command_still_aborts_cex :
    apn_send_binary_message [['a'], ['b']] [Ev.rd ⟨7, 1, 0, 0, 0, 9⟩]
        none 0 0 0 ApnError.unknown
      = some ⟨false, 0, 0, ApnError.unknown⟩
      ∧ apn_parse_apns_error ⟨7, 1, 0, 0, 0, 9⟩ 0 0 = (0, 0) := by
  decide

/-- C6 (amended): a 6-byte frame is decoded as a server error only if its
command byte equals 8 — otherwise the parser leaves the status-code and
identifier outputs untouched; when the command byte is 8, the status is
byte 1 and the 4-byte big-endian identifier at bytes 2-5 is decoded as the
token index, but only when that status is 8 (invalid token). However, the
receipt of ANY 6-byte frame terminates the engine invocation with an
`APN_ERROR` return: a frame with a non-8 command byte is not skipped. -/
theorem parse_apns_error_characterization :
    ∀ (f : ErrorFrame) (c0 i0 : Nat),
      (f.b0 ≠ 8 → apn_parse_apns_error f c0 i0 = (c0, i0))
        ∧ (f.b0 = 8 → apn_parse_apns_error f c0 i0 =
            (f.b1, if f.b1 = 8 then ntohl4 f.b2 f.b3 f.b4 f.b5 else i0))
        ∧ (∀ (tokens : List (List Char)) (rest : List Ev) (t : Option TrailEv)
            (i : Nat) (e0 : ApnError),
            i < tokens.length →
            apn_send_binary_message tokens (Ev.rd f :: rest) t i c0 i0 e0 =
              some ⟨false, (apn_parse_apns_error f c0 i0).1,
                    (apn_parse_apns_error f c0 i0).2, e0⟩) := by
  intro f c0 i0
  refine ⟨?_, ?_, ?_⟩
  · intro h
    simp [apn_parse_apns_error, h]
  · intro h
    simp [apn_parse_apns_error, h]
  · intro tokens rest t i e0 hi
    simp [apn_send_binary_message, hi]

/-- C6 witness: the characterization applied to the concrete valid error
frame `{cmd = 8, status = 8, id = 2}` arriving at token 0 of a one-token
batch. -/
theorem parse_apns_error_characterization_w :
    apn_send_binary_message [['a']] [Ev.rd ⟨8, 8, 0, 0, 0, 2⟩]
        none 0 0 0 ApnError.unknown
      = some ⟨false, 8, 2, ApnError.unknown⟩ := by
  have h := (parse_apns_error_characterization ⟨8, 8, 0, 0, 0, 2⟩ 0 0).2.2
    [['a']] [] none 0 ApnError.unknown (by decide)
  exact h.trans (by decide)

/-- C5 (confirmed): the server answers the batch with an error frame
`{cmd = 8, status = 8 (invalid token)}` whose big-endian identifier decodes
to `k < N`. The engine returns `APN_ERROR` with `apple_error_code = 8` and
`invalid_token_index = k`; the `apn_send` error block then appends exactly
the (duplicated) token of index `k` — and no other — to the requested
invalid-token collection, and resumes (reconnect enabled) at `k + 1`; when
`k + 1 = N` the retry loop instead breaks out with overall `APN_SUCCESS`
and the collection holds exactly that one token. -/
theorem send_invalid_token_handling :
    ∀ (tokens : List (List Char)) (b2 b3 b4 b5 : Nat) (rest : List Ev)
      (t : Option TrailEv) (i : Nat) (e0 : ApnError) (k : Nat),
      k = ntohl4 b2 b3 b4 b5 →
      k + 1 ≤ tokens.length →
      i < tokens.length →
      (tokens.getD k []).length ≤ APN_TOKEN_LENGTH →
      (apn_send_binary_message tokens (Ev.rd ⟨8, 8, b2, b3, b4, b5⟩ :: rest) t i 0 0 e0
          = some ⟨false, 8, k, e0⟩)
        ∧ (apn_send_step tokens true true ⟨false, 8, k, e0⟩ []
            = if k + 1 < tokens.length
              then StepRes.again true (k + 1) [tokens.getD k []]
              else StepRes.breakOk [tokens.getD k []])
        ∧ (k + 1 = tokens.length →
            apn_send_loop tokens true true [⟨false, 8, k, e0⟩] 0 [] false
              = some (SendResult.ok [tokens.getD k []])) := by
  intro tokens b2 b3 b4 b5 rest t i e0 k hk hkN hi hlen
  have hlen' : (tokens[k]?.getD []).length ≤ APN_TOKEN_LENGTH := by
    simpa [List.getD] using hlen
  have hstep : apn_send_step tokens true true ⟨false, 8, k, e0⟩ []
      = if k + 1 < tokens.length
        then StepRes.again true (k + 1) [tokens.getD k []]
        else StepRes.breakOk [tokens.getD k []] := by
    by_cases hlt : k + 1 < tokens.length <;>
      simp [apn_send_step, resolve_errcode, apn_convert_apple_error, apn_strndup,
        hlt, List.take_of_length_le hlen']
  refine ⟨?_, hstep, ?_⟩
  · simp [apn_send_binary_message, hi, apn_parse_apns_error, hk]
  · intro hEq
    have hnlt : ¬ (k + 1 < tokens.length) := by omega
    rw [if_neg hnlt] at hstep
    simp [apn_send_loop, hstep]

/-- C5 witness: a 2-token batch, error frame with identifier bytes
`0,0,0,1` (k = 1 = N - 1): the whole send succeeds with exactly the token
of index 1 in the invalid-token collection. -/
theorem send_invalid_token_handling_w :
    apn_send_loop [['a'], ['b']] true true [⟨false, 8, 1, ApnError.unknown⟩] 0 [] false
      = some (SendResult.ok [['b']]) := by
  have h := send_invalid_token_handling [['a'], ['b']] 0 0 0 1 [] none 0
    ApnError.unknown 1 (by decide) (by decide) (by decide) (by decide)
  exact (h.2.2 (by decide)).trans (by decide)

/-- `ntohs` applied to the two token-length bytes in network (big-endian)
order, as `apn_feedback` obtains the declared token length. -/
def ntohs2 (b4 b5 : Nat) : Nat :=
  b4 * 256 + b5

/-- Modelled from the spec: `apn_token_binary_to_hex` lives in
`apn_tokens.c`, which is not under src/; per the spec it is the pure
"fixed-size binary token to hex string" conversion, modelled as the
standard lower-case two-digits-per-byte encoder. -/
def hexDigit (n : Nat) : Char :=
  if n < 10 then Char.ofNat (48 + n) else Char.ofNat (87 + n)

/-- Modelled from the spec: hex encoding of a binary token, byte for byte,
high nibble first. -/
def apn_token_binary_to_hex (bytes : List Nat) : List Char :=
  (bytes.map (fun b => [hexDigit (b / 16), hexDigit (b % 16)])).flatten

/-- The frame-decoding block of `apn_feedback` (lines 463-478) on the
38-byte buffer: skip the 4 timestamp bytes, read and `ntohs` the 2-byte
token length (which the code then never uses), `memcpy` the next
`APN_TOKEN_BINARY_SIZE` = 32 bytes as the binary token, and hex-encode
them. -/
def apn_feedback_decode (buffer : List Nat) : List Char :=
  let _token_length := ntohs2 (buffer.getD 4 0) (buffer.getD 5 0)
  let binary_token := (buffer.drop 6).take 32
  apn_token_binary_to_hex binary_token

/-- C9 (confirmed): feedback frame decoding is a pure function of the
frame (determinism is definitional in this embedding), and the 4-byte
timestamp does not interfere: two 38-byte frames that agree on bytes 4
through 37 (i.e. differ at most in the timestamp bytes 0-3) decode to the
same hex token string. -/
theorem feedback_decode_timestamp_independent :
    ∀ f g : List Nat, f.length = 38 → g.length = 38 → f.drop 4 = g.drop 4 →
      apn_feedback_decode f = apn_feedback_decode g := by
  intro f g hf hg h
  have h6 : f.drop 6 = g.drop 6 := by
    have h2 := congrArg (List.drop 2) h
    simpa [List.drop_drop] using h2
  simp [apn_feedback_decode, h6]

/-- C9 witness: two concrete 38-byte frames differing only in the first
timestamp byte decode identically. -/
theorem feedback_decode_timestamp_independent_w :
    apn_feedback_decode (9 :: List.replicate 37 0)
      = apn_feedback_decode (0 :: List.replicate 37 0) :=
  feedback_decode_timestamp_independent _ _ (by decide) (by decide) (by decide)

/-- C10 (confirmed): the decoder reads and byte-swaps the declared 2-byte
token length (bytes 4-5) but never uses it — overwriting those two bytes
with anything leaves the decoded token unchanged, and the output is always
the hex encoding of exactly the 32 bytes 6-37. -/
theorem feedback_decode_ignores_declared_length :
    ∀ (f : List Nat) (b4 b5 : Nat),
      apn_feedback_decode ((f.set 4 b4).set 5 b5) = apn_feedback_decode f
        ∧ apn_feedback_decode f = apn_token_binary_to_hex ((f.drop 6).take 32) := by
  intro f b4 b5
  constructor
  · have h1 : ((f.set 4 b4).set 5 b5).drop 6 = f.drop 6 := by
      rw [List.drop_set, List.drop_set]
      · simp
    simp [apn_feedback_decode, h1]
  · rfl

end Libcapn
